import Mathlib

/-!
Verification of the pocketmon monitoring agent (collector.go) against its
natural-language specification.

The development is a shallow embedding of the Go source:
* decoded JSON payloads (`map[string]interface` values) become `JValue`;
* Go computations that can return an `error` or panic on a failed unchecked
  type assertion become `GoOut`;
* the HTTP transport is an explicit environment `Env` mapping each request
  (method, URL, body) to a transport error or a response, so the exact
  sequence of RPC calls a function issues can be stated; the functions below
  additionally return the list of requests they issued, which is pure
  instrumentation and changes no outcome;
* machine integers are modelled as `Nat`/`Int` with explicit range side
  conditions where Go's types impose them; `float64` JSON numbers are
  modelled exactly as rationals.
-/

namespace Pocketmon

/-- Generic JSON value: the model of what Go `encoding/json` produces when
decoding into `map[string]interface`: null, booleans, numbers (decoded to
`float64`, modelled as an exact rational), strings, arrays and objects. -/
inductive JValue where
  | jnull : JValue
  | jbool : Bool → JValue
  | jnum : ℚ → JValue
  | jstr : String → JValue
  | jarr : List JValue → JValue
  | jobj : List (String × JValue) → JValue

/-- Outcome of a Go computation: a normal result, a returned `error` value,
or a runtime panic (the outcome of a failed unchecked type assertion). -/
inductive GoOut (α : Type) where
  | ok : α → GoOut α
  | err : String → GoOut α
  | crash : GoOut α
deriving DecidableEq, Repr

/-- Go map indexing `m[k]` on a decoded JSON object: the first binding of the
key, or the nil interface value (which behaves like JSON null under type
assertions) when the key is absent. -/
def lookup : List (String × JValue) → String → JValue
  | [], _ => .jnull
  | p :: rest, k => if p.fst = k then p.snd else lookup rest k

/-- Go type assertion to `map[string]interface`: `some` on a JSON object,
`none` otherwise.  Used both for the checked assertion (`v, ok := x.(T)`) at
collector.go:232 and, wrapped in `GoOut.crash`, for the unchecked assertions
at collector.go:238-263. -/
def tryObj : JValue → Option (List (String × JValue))
  | .jobj m => some m
  | _ => none

/-- Go type assertion to `string`. -/
def tryStr : JValue → Option String
  | .jstr s => some s
  | _ => none

/-- Go type assertion to `bool`. -/
def tryBool : JValue → Option Bool
  | .jbool b => some b
  | _ => none

/-- Go type assertion to `float64` (every decoded JSON number). -/
def tryNum : JValue → Option ℚ
  | .jnum q => some q
  | _ => none

/-- Accumulate a base-10 digit string into a natural number; `none` if the
list is empty or contains a non-digit character. -/
def digitsToNat (cs : List Char) : Option Nat :=
  match cs with
  | [] => none
  | _ =>
    cs.foldl
      (fun acc c =>
        match acc with
        | none => none
        | some a => if c.isDigit then some (a * 10 + (c.toNat - 48)) else none)
      (some 0)

/-- Model of Go `strconv.ParseInt(s, 10, 64)`: an optional sign followed by
at least one decimal digit, with the value required to fit in `int64`. -/
def parseInt64 (str : String) : Except String Int :=
  match str.data with
  | [] => .error "strconv.ParseInt: invalid syntax"
  | c :: rest =>
    let signed : Bool × List Char :=
      if c = '-' then (true, rest)
      else if c = '+' then (false, rest)
      else (false, c :: rest)
    match digitsToNat signed.snd with
    | none => .error "strconv.ParseInt: invalid syntax"
    | some n =>
      let v : Int := if signed.fst then -(n : Int) else (n : Int)
      if v < -(2 ^ 63) ∨ (2 ^ 63 - 1) < v then
        .error "strconv.ParseInt: value out of range"
      else .ok v

/-- Embedding of the `NodeStats` struct (collector.go:31-44).  `Height` is Go
`int64` (modelled as `Int`), `Balance` is `float64` (modelled as `ℚ`). -/
structure NodeStats where
  Chain : String
  AppVersion : String
  Moniker : String
  Height : Int
  LatestBlockTime : String
  CatchingUp : Bool
  Balance : ℚ
  Chains : List String
  Jailed : Bool
  ServiceUrl : String
  Address : String
  PublicKey : String
deriving DecidableEq, Repr

/-- The Go zero value of `NodeStats`. -/
def NodeStats.zero : NodeStats :=
  ⟨"", "", "", 0, "", false, 0, [], false, "", "", ""⟩

/-- Embedding of the `HostStats` struct (collector.go:65-73); the five
`uint64` fields are modelled as `Nat`, `CPUUsagePercent` as `ℚ`. -/
structure HostStats where
  MemoryTotal : Nat
  MemoryFree : Nat
  DiskTotal : Nat
  DiskFree : Nat
  Uptime : Nat
  Platform : String
  CPUUsagePercent : ℚ
deriving DecidableEq, Repr

/-- The Go zero value of `HostStats`. -/
def HostStats.zero : HostStats := ⟨0, 0, 0, 0, 0, "", 0⟩

/-- Free-memory percentage computed inside `HostStats.String`
(collector.go:76): `100 * (float64(MemoryFree) / float64(MemoryTotal))`. -/
def HostStats.memFreePercent (s : HostStats) : ℚ :=
  100 * ((s.MemoryFree : ℚ) / (s.MemoryTotal : ℚ))

/-- Free-disk percentage computed inside `HostStats.String`
(collector.go:77): `100 * (float64(DiskFree) / float64(DiskTotal))`. -/
def HostStats.diskFreePercent (s : HostStats) : ℚ :=
  100 * ((s.DiskFree : ℚ) / (s.DiskTotal : ℚ))

/-- Embedding of the `Stats` report struct (collector.go:81-86). -/
structure Stats where
  Version : String
  Timestamp : String
  Node : NodeStats
  Host : HostStats
deriving DecidableEq, Repr

/-- HTTP method of an outbound local-RPC request. -/
inductive Method where
  | GET : Method
  | POST : Method
deriving DecidableEq, Repr

/-- An outbound HTTP request to the local node, as issued by the query
helpers: method, URL, and the serialized JSON body (for POSTs). -/
structure Request where
  method : Method
  url : String
  body : Option String
deriving DecidableEq, Repr

/-- Serialized body `json.Marshal(map[string]interface{"address": addr})`
sent by `queryNode` and `queryBalance`. -/
def addrBody (addr : String) : String :=
  "\x7b\"address\":\"" ++ addr ++ "\"\x7d"

/-- The request issued by `queryVersion` (collector.go:198-200): a plain GET,
via `client.Get`. -/
def versionReq : Request :=
  ⟨.GET, "http://localhost:8082/v1", none⟩

/-- The request issued by `queryStatus` (collector.go:181-183): a plain GET,
via `client.Get`. -/
def statusReq : Request :=
  ⟨.GET, "http://localhost:26657/status", none⟩

/-- The request issued by `queryNode` (collector.go:152-163): a POST with a
JSON `address` body. -/
def nodeReq (addr : String) : Request :=
  ⟨.POST, "http://localhost:8082/v1/query/node", some (addrBody addr)⟩

/-- The request issued by `queryBalance` (collector.go:123-135): a POST with
a JSON `address` body. -/
def balanceReq (addr : String) : Request :=
  ⟨.POST, "http://localhost:8082/v1/query/balance", some (addrBody addr)⟩

/-- A local-RPC HTTP response: status code and body.  The body is the decoded
JSON document, `none` when the body is not valid JSON. -/
structure RpcResp where
  code : Int
  body : Option JValue

/-- Transport environment for the local node: what `client.Do`/`client.Get`
yields for each request — a transport error or a response. -/
abbrev Env := Request → Except String RpcResp

/-- Go `json.Decode` of a response body into a `string` variable: succeeds on
a JSON string; JSON `null` leaves the zero value `""`; anything else (other
shapes, or a body that is not valid JSON) is a decode error. -/
def decodeStr : Option JValue → Except String String
  | some (.jstr s) => .ok s
  | some .jnull => .ok ""
  | _ => .error "json decode error"

/-- Go `json.Decode` of a response body into `map[string]interface`: succeeds
on a JSON object; JSON `null` leaves the nil map (which indexes like the
empty map); anything else is a decode error. -/
def decodeObj : Option JValue → Except String (List (String × JValue))
  | some (.jobj m) => .ok m
  | some .jnull => .ok []
  | _ => .error "json decode error"

/-- Embedding of `queryVersion` (collector.go:198-214): GET the node API
root, decode the body into a string. -/
def queryVersion (env : Env) : Except String String :=
  match env versionReq with
  | .error e => .error e
  | .ok r => decodeStr r.body

/-- Embedding of `queryStatus` (collector.go:181-197): GET the consensus
status endpoint, decode the body into a generic keyed structure.  The
response status code is never inspected. -/
def queryStatus (env : Env) : Except String (List (String × JValue)) :=
  match env statusReq with
  | .error e => .error e
  | .ok r => decodeObj r.body

/-- Embedding of `queryNode` (collector.go:152-179): POST the address to the
node-info endpoint, decode the body.  The status code is never inspected. -/
def queryNode (env : Env) (addr : String) : Except String (List (String × JValue)) :=
  match env (nodeReq addr) with
  | .error e => .error e
  | .ok r => decodeObj r.body

/-- Embedding of `queryBalance` (collector.go:123-151): POST the address to
the balance endpoint, decode the body.  The status code is never inspected. -/
def queryBalance (env : Env) (addr : String) : Except String (List (String × JValue)) :=
  match env (balanceReq addr) with
  | .error e => .error e
  | .ok r => decodeObj r.body

/-- Embedding of `collectNodeStats` (collector.go:216-266).  Besides the
outcome it returns the list of local RPC requests issued, in order (pure
instrumentation).  Only the extraction of the top-level `result` field is a
checked assertion (collector.go:232-236); every deeper field extraction is an
unchecked Go type assertion, so a missing or mistyped field there is a
runtime panic (`GoOut.crash`), not an error return. -/
def collectNodeStats (env : Env) : GoOut NodeStats × List Request :=
  let s0 := { NodeStats.zero with Chain := "pocket" }
  match queryVersion env with
  | .error e => (.err e, [versionReq])
  | .ok ver =>
    let s1 := { s0 with AppVersion := ver }
    match queryStatus env with
    | .error e => (.err e, [versionReq, statusReq])
    | .ok statusResp =>
      match tryObj (lookup statusResp "result") with
      | none => (.err "Invalid data from /status call", [versionReq, statusReq])
      | some status =>
        match tryObj (lookup status "node_info") with
        | none => (.crash, [versionReq, statusReq])
        | some nodeInfo =>
          match tryStr (lookup nodeInfo "id") with
          | none => (.crash, [versionReq, statusReq])
          | some addr =>
            match tryStr (lookup nodeInfo "moniker") with
            | none => (.crash, [versionReq, statusReq])
            | some moniker =>
              let s2 := { s1 with Address := addr, Moniker := moniker }
              match tryObj (lookup status "sync_info") with
              | none => (.crash, [versionReq, statusReq])
              | some syncInfo =>
                match tryStr (lookup syncInfo "latest_block_height") with
                | none => (.crash, [versionReq, statusReq])
                | some hstr =>
                  match parseInt64 hstr with
                  | .error e => (.err e, [versionReq, statusReq])
                  | .ok h =>
                    let s3 := { s2 with Height := h }
                    match tryStr (lookup syncInfo "latest_block_time") with
                    | none => (.crash, [versionReq, statusReq])
                    | some lbt =>
                      match tryBool (lookup syncInfo "catching_up") with
                      | none => (.crash, [versionReq, statusReq])
                      | some cu =>
                        let s4 := { s3 with LatestBlockTime := lbt, CatchingUp := cu }
                        match queryNode env s4.Address with
                        | .error e => (.err e, [versionReq, statusReq, nodeReq s4.Address])
                        | .ok nodeResp =>
                          match tryStr (lookup nodeResp "public_key") with
                          | none => (.crash, [versionReq, statusReq, nodeReq s4.Address])
                          | some pk =>
                            match tryBool (lookup nodeResp "jailed") with
                            | none => (.crash, [versionReq, statusReq, nodeReq s4.Address])
                            | some jl =>
                              match tryStr (lookup nodeResp "service_url") with
                              | none => (.crash, [versionReq, statusReq, nodeReq s4.Address])
                              | some surl =>
                                let s5 := { s4 with PublicKey := pk, Jailed := jl, ServiceUrl := surl }
                                match queryBalance env s5.Address with
                                | .error e =>
                                  (.err e,
                                   [versionReq, statusReq, nodeReq s5.Address, balanceReq s5.Address])
                                | .ok balResp =>
                                  match tryNum (lookup balResp "balance") with
                                  | none =>
                                    (.crash,
                                     [versionReq, statusReq, nodeReq s5.Address, balanceReq s5.Address])
                                  | some bal =>
                                    (.ok { s5 with Balance := bal },
                                     [versionReq, statusReq, nodeReq s5.Address, balanceReq s5.Address])

/-- Embedding of `collectStats` (collector.go:306-328).  `now` stands for
`time.Now().Format(time.RFC3339)` at the moment of the call, and `hostRead`
is the outcome of `collectHostStats` (collector.go:268-304), which is a
direct wrapper over the external gopsutil host-metrics provider (out of
scope per the spec, modelled at its interface boundary).  The second
component is the list of node-RPC requests issued. -/
def collectStats (now : String) (hostRead : Except String HostStats) (env : Env) :
    GoOut Stats × List Request :=
  let s : Stats :=
    { Version := "v1", Timestamp := now, Node := NodeStats.zero, Host := HostStats.zero }
  match hostRead with
  | .error e => (.err e, [])
  | .ok hs =>
    match collectNodeStats env with
    | (.err e, tr) => (.err e, tr)
    | (.crash, tr) => (.crash, tr)
    | (.ok ns, tr) => (.ok { s with Host := hs, Node := ns }, tr)

/-- The remote collector endpoint constant (collector.go:24). -/
def endpoint : String := "https://injest.lunar.dev"

/-- Embedding of `getUrl` (collector.go:94-96). -/
def getUrl (node : String) : String := endpoint ++ "/" ++ node

/-- A response from the remote collector: status code and raw body text. -/
structure RemoteResp where
  code : Int
  body : String
deriving DecidableEq, Repr

/-- Transport outcome of the POST to the remote collector. -/
abbrev RemoteEnv := Except String RemoteResp

/-- An outbound HTTP POST issued to the remote collector: target URL, the
`x-api-key` header value, and the report being sent (serialized by
`marshalStats` on the wire). -/
structure SendReq where
  url : String
  apiKey : String
  report : Stats
deriving DecidableEq, Repr

/-- Embedding of `sendStats` (collector.go:98-121).  `json.Marshal` of a
`Stats` value cannot fail, so the POST is always issued; the function then
returns success exactly when the response status code is at most 399, and
otherwise an error carrying the status code and the response body text as
formatted by `fmt.Sprintf` at collector.go:118.  The second component lists
the requests issued to the remote collector. -/
def sendStats (node key : String) (s : Stats) (remote : RemoteEnv) :
    Except String Unit × List SendReq :=
  let req : SendReq := ⟨getUrl node, key, s⟩
  match remote with
  | .error e => (.error e, [req])
  | .ok r =>
    if r.code > 399 then
      (.error (toString r.code ++ " " ++ r.body ++ "\n"), [req])
    else
      (.ok (), [req])

/-- Embedding of `collectAndSend` (collector.go:330-342), observed through
the outbound calls it makes to the remote collector: when `collectStats`
fails (error or panic) it returns having issued none; otherwise it issues
exactly the calls of `sendStats` on the assembled report. -/
def collectAndSend (node key now : String) (hostRead : Except String HostStats)
    (env : Env) (remote : RemoteEnv) : List SendReq :=
  match collectStats now hostRead env with
  | (.err _, _) => []
  | (.crash, _) => []
  | (.ok s, _) => (sendStats node key s remote).snd

/-- Members of the JSON object Go `json.Marshal` produces for `NodeStats`:
fields in declaration order, keyed by the struct tags of collector.go:31-44.
The tag on `LatestBlockTime` (collector.go:36) is malformed (missing
quotes), so `encoding/json` falls back to the field name as the key. -/
def nodeFieldsJ (n : NodeStats) : List (String × JValue) :=
  [("chain", .jstr n.Chain),
   ("app_version", .jstr n.AppVersion),
   ("moniker", .jstr n.Moniker),
   ("height", .jnum (n.Height : ℚ)),
   ("LatestBlockTime", .jstr n.LatestBlockTime),
   ("catching_up", .jbool n.CatchingUp),
   ("balance", .jnum n.Balance),
   ("chains", .jarr (n.Chains.map JValue.jstr)),
   ("jailed", .jbool n.Jailed),
   ("service_url", .jstr n.ServiceUrl),
   ("address", .jstr n.Address),
   ("public_key", .jstr n.PublicKey)]

/-- Serialization of `NodeStats` by Go `json.Marshal`. -/
def marshalNodeStats (n : NodeStats) : JValue := .jobj (nodeFieldsJ n)

/-- Members of the JSON object Go `json.Marshal` produces for `HostStats`:
no struct tags (collector.go:65-73), so the keys are the field names. -/
def hostFieldsJ (h : HostStats) : List (String × JValue) :=
  [("MemoryTotal", .jnum ((h.MemoryTotal : Int) : ℚ)),
   ("MemoryFree", .jnum ((h.MemoryFree : Int) : ℚ)),
   ("DiskTotal", .jnum ((h.DiskTotal : Int) : ℚ)),
   ("DiskFree", .jnum ((h.DiskFree : Int) : ℚ)),
   ("Uptime", .jnum ((h.Uptime : Int) : ℚ)),
   ("Platform", .jstr h.Platform),
   ("CPUUsagePercent", .jnum h.CPUUsagePercent)]

/-- Serialization of `HostStats` by Go `json.Marshal`. -/
def marshalHostStats (h : HostStats) : JValue := .jobj (hostFieldsJ h)

/-- Members of the JSON object for the `Stats` report (collector.go:81-86). -/
def statsFieldsJ (s : Stats) : List (String × JValue) :=
  [("version", .jstr s.Version),
   ("timestamp", .jstr s.Timestamp),
   ("node", marshalNodeStats s.Node),
   ("host", marshalHostStats s.Host)]

/-- Serialization of the `Stats` report by Go `json.Marshal`
(used at collector.go:101). -/
def marshalStats (s : Stats) : JValue := .jobj (statsFieldsJ s)

/-- Go `json.Unmarshal` of one object member into a `string` field: an
absent key or JSON null leaves the zero value, a JSON string is taken, any
other shape is an unmarshal type error. -/
def decStrV : JValue → Except String String
  | .jnull => .ok ""
  | .jstr s => .ok s
  | _ => .error "json: cannot unmarshal value into field of type string"

/-- Go `json.Unmarshal` of one object member into a `bool` field. -/
def decBoolV : JValue → Except String Bool
  | .jnull => .ok false
  | .jbool b => .ok b
  | _ => .error "json: cannot unmarshal value into field of type bool"

/-- Go `json.Unmarshal` of one object member into an `int64` field: the
number must be integral and fit in `int64`. -/
def decI64V : JValue → Except String Int
  | .jnull => .ok 0
  | .jnum q =>
    if q.den = 1 ∧ -(2 ^ 63) ≤ q.num ∧ q.num ≤ 2 ^ 63 - 1 then .ok q.num
    else .error "json: cannot unmarshal number into field of type int64"
  | _ => .error "json: cannot unmarshal value into field of type int64"

/-- Go `json.Unmarshal` of one object member into a `uint64` field: the
number must be integral, non-negative and fit in `uint64`. -/
def decU64V : JValue → Except String Nat
  | .jnull => .ok 0
  | .jnum q =>
    if q.den = 1 ∧ 0 ≤ q.num ∧ q.num < 2 ^ 64 then .ok q.num.toNat
    else .error "json: cannot unmarshal number into field of type uint64"
  | _ => .error "json: cannot unmarshal value into field of type uint64"

/-- Go `json.Unmarshal` of one object member into a `float64` field: every
JSON number is accepted. -/
def decFloatV : JValue → Except String ℚ
  | .jnull => .ok 0
  | .jnum q => .ok q
  | _ => .error "json: cannot unmarshal value into field of type float64"

/-- Decode every element of a JSON array as a string. -/
def strElems : List JValue → Except String (List String)
  | [] => .ok []
  | v :: rest =>
    match v with
    | .jstr s =>
      match strElems rest with
      | .ok l => .ok (s :: l)
      | .error e => .error e
    | _ => .error "json: cannot unmarshal value into field of type string"

/-- Go `json.Unmarshal` of one object member into a `[]string` field. -/
def decStrListV : JValue → Except String (List String)
  | .jnull => .ok []
  | .jarr xs => strElems xs
  | _ => .error "json: cannot unmarshal value into field of type string slice"

/-- Go `json.Unmarshal` of a JSON value into a fresh `NodeStats`, matching
members by the same keys `json.Marshal` emits. -/
def unmarshalNodeStats : JValue → Except String NodeStats
  | .jnull => .ok NodeStats.zero
  | .jobj m =>
    match decStrV (lookup m "chain") with
    | .error e => .error e
    | .ok chain =>
      match decStrV (lookup m "app_version") with
      | .error e => .error e
      | .ok appVersion =>
        match decStrV (lookup m "moniker") with
        | .error e => .error e
        | .ok moniker =>
          match decI64V (lookup m "height") with
          | .error e => .error e
          | .ok height =>
            match decStrV (lookup m "LatestBlockTime") with
            | .error e => .error e
            | .ok lbt =>
              match decBoolV (lookup m "catching_up") with
              | .error e => .error e
              | .ok cu =>
                match decFloatV (lookup m "balance") with
                | .error e => .error e
                | .ok bal =>
                  match decStrListV (lookup m "chains") with
                  | .error e => .error e
                  | .ok chains =>
                    match decBoolV (lookup m "jailed") with
                    | .error e => .error e
                    | .ok jl =>
                      match decStrV (lookup m "service_url") with
                      | .error e => .error e
                      | .ok surl =>
                        match decStrV (lookup m "address") with
                        | .error e => .error e
                        | .ok addr =>
                          match decStrV (lookup m "public_key") with
                          | .error e => .error e
                          | .ok pk =>
                            .ok ⟨chain, appVersion, moniker, height, lbt, cu,
                                 bal, chains, jl, surl, addr, pk⟩
  | _ => .error "json: cannot unmarshal value into NodeStats"

/-- Go `json.Unmarshal` of a JSON value into a fresh `HostStats`. -/
def unmarshalHostStats : JValue → Except String HostStats
  | .jnull => .ok HostStats.zero
  | .jobj m =>
    match decU64V (lookup m "MemoryTotal") with
    | .error e => .error e
    | .ok mt =>
      match decU64V (lookup m "MemoryFree") with
      | .error e => .error e
      | .ok mf =>
        match decU64V (lookup m "DiskTotal") with
        | .error e => .error e
        | .ok dt =>
          match decU64V (lookup m "DiskFree") with
          | .error e => .error e
          | .ok df =>
            match decU64V (lookup m "Uptime") with
            | .error e => .error e
            | .ok up =>
              match decStrV (lookup m "Platform") with
              | .error e => .error e
              | .ok pl =>
                match decFloatV (lookup m "CPUUsagePercent") with
                | .error e => .error e
                | .ok cpu => .ok ⟨mt, mf, dt, df, up, pl, cpu⟩
  | _ => .error "json: cannot unmarshal value into HostStats"

/-- Go `json.Unmarshal` of a JSON document into a fresh `Stats` report. -/
def unmarshalStats : JValue → Except String Stats
  | .jnull => .ok ⟨"", "", NodeStats.zero, HostStats.zero⟩
  | .jobj m =>
    match decStrV (lookup m "version") with
    | .error e => .error e
    | .ok v =>
      match decStrV (lookup m "timestamp") with
      | .error e => .error e
      | .ok ts =>
        match unmarshalNodeStats (lookup m "node") with
        | .error e => .error e
        | .ok node =>
          match unmarshalHostStats (lookup m "host") with
          | .error e => .error e
          | .ok host => .ok ⟨v, ts, node, host⟩
  | _ => .error "json: cannot unmarshal value into Stats"

/-- Well-formedness imposed in Go by the struct field types themselves:
`Height` is an `int64` and the five `HostStats` counters are `uint64`, so
every report the Go program can hold satisfies these bounds. -/
def StatsWF (s : Stats) : Prop :=
  -(2 ^ 63) ≤ s.Node.Height ∧ s.Node.Height ≤ 2 ^ 63 - 1 ∧
  s.Host.MemoryTotal < 2 ^ 64 ∧ s.Host.MemoryFree < 2 ^ 64 ∧
  s.Host.DiskTotal < 2 ^ 64 ∧ s.Host.DiskFree < 2 ^ 64 ∧ s.Host.Uptime < 2 ^ 64

instance (s : Stats) : Decidable (StatsWF s) := by
  unfold StatsWF; infer_instance

/-- Environment builder routing each request by its URL to the supplied
responses for the version, status, node and balance endpoints. -/
def mkEnv (vr sr nr br : Except String RpcResp) : Env := fun r =>
  if r.url = "http://localhost:8082/v1" then vr
  else if r.url = "http://localhost:26657/status" then sr
  else if r.url = "http://localhost:8082/v1/query/node" then nr
  else br

/-- A `/status` payload of the shape documented in the spec (section 6). -/
def mkStatusBody (id moniker hstr lbt : String) (cu : Bool) : JValue :=
  .jobj
    [("result", .jobj
      [("node_info", .jobj [("id", .jstr id), ("moniker", .jstr moniker)]),
       ("sync_info", .jobj
         [("latest_block_height", .jstr hstr),
          ("latest_block_time", .jstr lbt),
          ("catching_up", .jbool cu)])])]

/-- A node-info payload of the documented shape. -/
def mkNodeBody (pk : String) (jl : Bool) (surl : String) : JValue :=
  .jobj [("public_key", .jstr pk), ("jailed", .jbool jl), ("service_url", .jstr surl)]

/-- A balance payload of the documented shape. -/
def mkBalanceBody (bal : ℚ) : JValue := .jobj [("balance", .jnum bal)]

/-- An environment in which all four endpoints answer with payloads of the
documented shape. -/
def wfEnv (ver id moniker hstr lbt : String) (cu : Bool) (pk : String) (jl : Bool)
    (surl : String) (bal : ℚ) : Env :=
  mkEnv (.ok ⟨200, some (.jstr ver)⟩)
        (.ok ⟨200, some (mkStatusBody id moniker hstr lbt cu)⟩)
        (.ok ⟨200, some (mkNodeBody pk jl surl)⟩)
        (.ok ⟨200, some (mkBalanceBody bal)⟩)

/-- A concrete fully-successful environment. -/
def okEnv : Env :=
  wfEnv "RC-0.6.3" "id1" "alice" "1000000" "2021-01-01T00:00:00Z" false
        "pk1" false "https://node.example" 42

/-- The node-status record `collectNodeStats` produces on `okEnv`. -/
def nsOk : NodeStats :=
  ⟨"pocket", "RC-0.6.3", "alice", 1000000, "2021-01-01T00:00:00Z", false, 42,
   [], false, "https://node.example", "id1", "pk1"⟩

/-- A `/status` payload whose `result` object has `node_info` but no
`sync_info` member. -/
def statusBodyNoSync : JValue :=
  .jobj
    [("result", .jobj
      [("node_info", .jobj [("id", .jstr "id1"), ("moniker", .jstr "alice")])])]

/-- An environment whose `/status` payload lacks `sync_info`. -/
def envNoSync : Env :=
  mkEnv (.ok ⟨200, some (.jstr "RC-0.6.3")⟩)
        (.ok ⟨200, some statusBodyNoSync⟩)
        (.ok ⟨200, none⟩)
        (.ok ⟨200, none⟩)

/-- An environment whose `/status` payload has a non-object `result`. -/
def envBadResult : Env :=
  mkEnv (.ok ⟨200, some (.jstr "RC-0.6.3")⟩)
        (.ok ⟨200, some (.jobj [("result", .jstr "oops")])⟩)
        (.ok ⟨200, none⟩)
        (.ok ⟨200, none⟩)

/-- An environment whose payloads are well-shaped but report a negative
block height and empty id and public key strings. -/
def envNeg : Env :=
  wfEnv "0.1" "" "alice" "-1" "t0" false "" false "surl" 5

/-- The node-status record `collectNodeStats` produces on `envNeg`. -/
def nsNeg : NodeStats :=
  ⟨"pocket", "0.1", "alice", -1, "t0", false, 5, [], false, "surl", "", ""⟩

/-- An environment in which the very first RPC (version) fails at the
transport level. -/
def envVerFail : Env :=
  mkEnv (.error "connection refused") (.error "unreachable")
        (.error "unreachable") (.error "unreachable")

/-- A concrete report matching the end-to-end example of spec section 8. -/
def statsEx : Stats :=
  ⟨"v1", "2021-01-01T00:00:00Z",
   ⟨"pocket", "RC-0.6.3", "alice", 1000000, "2021-01-01T00:00:00Z", false,
    85 / 2, [], false, "https://node.example", "id1", "pk1"⟩,
   ⟨17179869184, 4294967296, 100000000000, 40000000000, 3600, "linux", 25 / 2⟩⟩

/-- Number of parameters of `collectAndSend` in the source:
`func collectAndSend(node, key string)` (collector.go:330). -/
def collectAndSendParamCount : Nat := 2

/-- Number of arguments passed at the unconditional startup call
`collectAndSend()` inside `start` (collector.go:349). -/
def startupCallArgCount : Nat := 0

/-- A host-metrics record reporting more free memory than total memory. -/
def hostCex : HostStats := ⟨100, 200, 100, 50, 0, "linux", 0⟩

/-- A host-metrics record with free at most total on both resources. -/
def hostWit : HostStats := ⟨100, 25, 200, 50, 0, "linux", 12⟩

theorem queryVersion_mkEnv_ok (c : Int) (v : String) (sr nr br : Except String RpcResp) :
    queryVersion (mkEnv (.ok ⟨c, some (.jstr v)⟩) sr nr br) = .ok v := rfl

theorem queryStatus_mkEnv_ok (c : Int) (m : List (String × JValue))
    (vr nr br : Except String RpcResp) :
    queryStatus (mkEnv vr (.ok ⟨c, some (.jobj m)⟩) nr br) = .ok m := rfl

theorem queryNode_mkEnv_ok (c : Int) (m : List (String × JValue)) (a : String)
    (vr sr br : Except String RpcResp) :
    queryNode (mkEnv vr sr (.ok ⟨c, some (.jobj m)⟩) br) a = .ok m := rfl

theorem queryBalance_mkEnv_ok (c : Int) (m : List (String × JValue)) (a : String)
    (vr sr nr : Except String RpcResp) :
    queryBalance (mkEnv vr sr nr (.ok ⟨c, some (.jobj m)⟩)) a = .ok m := rfl

/-- Symbolic evaluation of `collectNodeStats` on an environment whose four
payloads all have the documented shape. -/
theorem collectNodeStats_wfEnv (ver id moniker hstr lbt : String) (cu : Bool) (pk : String)
    (jl : Bool) (surl : String) (bal : ℚ) (h : Int) (hp : parseInt64 hstr = .ok h) :
    collectNodeStats (wfEnv ver id moniker hstr lbt cu pk jl surl bal)
      = (GoOut.ok ⟨"pocket", ver, moniker, h, lbt, cu, bal, [], jl, surl, id, pk⟩,
         [versionReq, statusReq, nodeReq id, balanceReq id]) := by
  unfold wfEnv
  simp only [collectNodeStats, queryVersion_mkEnv_ok, queryStatus_mkEnv_ok,
    queryNode_mkEnv_ok, queryBalance_mkEnv_ok, mkStatusBody, mkNodeBody, mkBalanceBody,
    lookup, tryObj, tryStr, tryBool, tryNum, hp]
  simp [lookup, tryObj, tryStr, tryBool, tryNum, NodeStats.zero, hp]

/-- C1 counterexample: with the version call succeeding and a `/status`
payload whose `result` object carries `node_info` but no `sync_info`
(`envNoSync`), `collectNodeStats` does not return a `MalformedResponse`
error — the unchecked type assertion at collector.go:241 panics. -/
theorem collectNodeStats_missing_sync_crashes :
    (collectNodeStats envNoSync).fst = GoOut.crash := by decide

/-- C1 (amended): only the extraction of the top-level `result` field is
checked — when `result` is absent or not an object, `collectNodeStats`
returns the error `Invalid data from /status call`; when any deeper expected
field (`node_info`, `id`, `moniker`, `sync_info`, `latest_block_height`,
`latest_block_time`, `catching_up`) is the first one absent or of an
unexpected type, the unchecked type assertion panics instead of returning an
error. -/
theorem collectNodeStats_result_check_only (env : Env) (ver : String)
    (m : List (String × JValue)) (hv : queryVersion env = .ok ver)
    (hs : queryStatus env = .ok m) :
    (tryObj (lookup m "result") = none →
      (collectNodeStats env).fst = GoOut.err "Invalid data from /status call")
    ∧ (∀ r, tryObj (lookup m "result") = some r →
        tryObj (lookup r "node_info") = none → (collectNodeStats env).fst = GoOut.crash)
    ∧ (∀ r ni, tryObj (lookup m "result") = some r →
        tryObj (lookup r "node_info") = some ni →
        tryStr (lookup ni "id") = none → (collectNodeStats env).fst = GoOut.crash)
    ∧ (∀ r ni a, tryObj (lookup m "result") = some r →
        tryObj (lookup r "node_info") = some ni →
        tryStr (lookup ni "id") = some a →
        tryStr (lookup ni "moniker") = none → (collectNodeStats env).fst = GoOut.crash)
    ∧ (∀ r ni a mo, tryObj (lookup m "result") = some r →
        tryObj (lookup r "node_info") = some ni →
        tryStr (lookup ni "id") = some a → tryStr (lookup ni "moniker") = some mo →
        tryObj (lookup r "sync_info") = none → (collectNodeStats env).fst = GoOut.crash)
    ∧ (∀ r ni a mo si, tryObj (lookup m "result") = some r →
        tryObj (lookup r "node_info") = some ni →
        tryStr (lookup ni "id") = some a → tryStr (lookup ni "moniker") = some mo →
        tryObj (lookup r "sync_info") = some si →
        tryStr (lookup si "latest_block_height") = none →
        (collectNodeStats env).fst = GoOut.crash)
    ∧ (∀ r ni a mo si hstr h, tryObj (lookup m "result") = some r →
        tryObj (lookup r "node_info") = some ni →
        tryStr (lookup ni "id") = some a → tryStr (lookup ni "moniker") = some mo →
        tryObj (lookup r "sync_info") = some si →
        tryStr (lookup si "latest_block_height") = some hstr → parseInt64 hstr = .ok h →
        tryStr (lookup si "latest_block_time") = none →
        (collectNodeStats env).fst = GoOut.crash)
    ∧ (∀ r ni a mo si hstr h lbt, tryObj (lookup m "result") = some r →
        tryObj (lookup r "node_info") = some ni →
        tryStr (lookup ni "id") = some a → tryStr (lookup ni "moniker") = some mo →
        tryObj (lookup r "sync_info") = some si →
        tryStr (lookup si "latest_block_height") = some hstr → parseInt64 hstr = .ok h →
        tryStr (lookup si "latest_block_time") = some lbt →
        tryBool (lookup si "catching_up") = none →
        (collectNodeStats env).fst = GoOut.crash) := by
  refine ⟨?_, ?_, ?_, ?_, ?_, ?_, ?_, ?_⟩
  · intro h1; simp [collectNodeStats, hv, hs, h1]
  · intro r h1 h2; simp [collectNodeStats, hv, hs, h1, h2]
  · intro r ni h1 h2 h3; simp [collectNodeStats, hv, hs, h1, h2, h3]
  · intro r ni a h1 h2 h3 h4; simp [collectNodeStats, hv, hs, h1, h2, h3, h4]
  · intro r ni a mo h1 h2 h3 h4 h5; simp [collectNodeStats, hv, hs, h1, h2, h3, h4, h5]
  · intro r ni a mo si h1 h2 h3 h4 h5 h6
    simp [collectNodeStats, hv, hs, h1, h2, h3, h4, h5, h6]
  · intro r ni a mo si hstr h h1 h2 h3 h4 h5 h6 h7 h8
    simp [collectNodeStats, hv, hs, h1, h2, h3, h4, h5, h6, h7, h8]
  · intro r ni a mo si hstr h lbt h1 h2 h3 h4 h5 h6 h7 h8 h9
    simp [collectNodeStats, hv, hs, h1, h2, h3, h4, h5, h6, h7, h8, h9]

/-- Witness for the amended C1 theorem at the concrete environment
`envBadResult`, whose `/status` payload has a non-object `result`. -/
theorem collectNodeStats_result_check_only_witness :
    (collectNodeStats envBadResult).fst = GoOut.err "Invalid data from /status call" :=
  (collectNodeStats_result_check_only envBadResult "RC-0.6.3"
    [("result", .jstr "oops")] rfl rfl).1 rfl

/-- C2: a failing local RPC makes `collectNodeStats` report an error, and a
cycle whose `collectStats` reports an error (from the node read or the host
read) performs zero outbound calls to the remote collector: `collectAndSend`
returns without invoking `sendStats`, so no partial report is sent. -/
theorem collectAndSend_failfast (node key now : String) (hostRead : Except String HostStats)
    (env : Env) (remote : RemoteEnv) :
    (∀ e, queryVersion env = .error e → (collectNodeStats env).fst = GoOut.err e)
    ∧ (∀ e tr, collectNodeStats env = (GoOut.err e, tr) →
        collectAndSend node key now hostRead env remote = [])
    ∧ (∀ e, hostRead = .error e →
        collectAndSend node key now hostRead env remote = []) := by
  refine ⟨?_, ?_, ?_⟩
  · intro e he; simp [collectNodeStats, he]
  · intro e tr h; cases hostRead <;> simp [collectAndSend, collectStats, h]
  · intro e he; simp [collectAndSend, collectStats, he]

/-- Witness for C2 at a concrete environment in which the first RPC fails at
the transport level: the cycle issues no request to the remote collector. -/
theorem collectAndSend_failfast_witness :
    collectNodeStats envVerFail = (GoOut.err "connection refused", [versionReq])
    ∧ collectAndSend "node1" "key1" "t0" (Except.ok HostStats.zero) envVerFail
        (Except.ok ⟨200, "ok"⟩) = [] :=
  ⟨rfl, (collectAndSend_failfast "node1" "key1" "t0" (Except.ok HostStats.zero) envVerFail
    (Except.ok ⟨200, "ok"⟩)).2.1 "connection refused" [versionReq] rfl⟩

/-- C3: when a response arrives from the remote collector, `sendStats`
succeeds exactly when the status code is below 400, and every status code at
least 400 produces an error carrying that status code and the response body
text (the `fmt.Sprintf` format of collector.go:118). -/
theorem sendStats_status_classification (node key : String) (s : Stats) (code : Int)
    (body : String) :
    ((sendStats node key s (Except.ok ⟨code, body⟩)).fst = Except.ok () ↔ code < 400)
    ∧ (400 ≤ code →
        (sendStats node key s (Except.ok ⟨code, body⟩)).fst
          = Except.error (toString code ++ " " ++ body ++ "\n")) := by
  constructor
  · by_cases h : code > 399
    · simp only [sendStats, if_pos h]
      constructor
      · intro hc; cases hc
      · intro hc; omega
    · simp only [sendStats, if_neg h]
      constructor
      · intro _; omega
      · intro _; trivial
  · intro h
    simp only [sendStats, if_pos (show code > 399 by omega)]

/-- Witness for C3: a concrete 500 response is rejected with the status code
and body in the error message. -/
theorem sendStats_status_classification_witness :
    (400 : Int) ≤ 500
    ∧ (sendStats "node1" "key1" statsEx (Except.ok ⟨500, "oops"⟩)).fst
        = Except.error "500 oops\n" :=
  ⟨by decide, (sendStats_status_classification "node1" "key1" statsEx 500 "oops").2 (by decide)⟩

/-- C4 counterexample: on a fully successful run the first RPC issued (the
version query, collector.go:200) is a plain GET via `client.Get`, not a
POST as the claim states. -/
theorem collectNodeStats_version_call_is_GET :
    (collectNodeStats okEnv).snd.head? = some versionReq
    ∧ versionReq.method = Method.GET ∧ Method.GET ≠ Method.POST := by
  refine ⟨by decide, rfl, by decide⟩

/-- C4 (amended): the node-status read issues at most the four RPC calls
version, status, node-info, balance in that fixed order, each only if the
previous one succeeded, with exactly four on success: a version failure
stops after one call, a status failure after two, a node-info failure after
three (no balance call), and a balance failure still issues all four; steps
3 and 4 are POSTs to the node API while steps 1 (version) and 2 (status)
are plain GETs. -/
theorem collectNodeStats_call_order (env : Env) :
    versionReq.method = Method.GET ∧ statusReq.method = Method.GET
    ∧ (∀ a, (nodeReq a).method = Method.POST ∧ (balanceReq a).method = Method.POST)
    ∧ (∀ e, queryVersion env = .error e → (collectNodeStats env).snd = [versionReq])
    ∧ (∀ v e, queryVersion env = .ok v → queryStatus env = .error e →
        (collectNodeStats env).snd = [versionReq, statusReq])
    ∧ (∀ ns tr, collectNodeStats env = (GoOut.ok ns, tr) →
        tr = [versionReq, statusReq, nodeReq ns.Address, balanceReq ns.Address])
    ∧ (∀ v m r ni a mo si hstr h lbt cu e, queryVersion env = .ok v →
        queryStatus env = .ok m →
        tryObj (lookup m "result") = some r → tryObj (lookup r "node_info") = some ni →
        tryStr (lookup ni "id") = some a → tryStr (lookup ni "moniker") = some mo →
        tryObj (lookup r "sync_info") = some si →
        tryStr (lookup si "latest_block_height") = some hstr → parseInt64 hstr = .ok h →
        tryStr (lookup si "latest_block_time") = some lbt →
        tryBool (lookup si "catching_up") = some cu →
        queryNode env a = .error e →
        collectNodeStats env = (GoOut.err e, [versionReq, statusReq, nodeReq a]))
    ∧ (∀ v m r ni a mo si hstr h lbt cu nresp pk jl surl e, queryVersion env = .ok v →
        queryStatus env = .ok m →
        tryObj (lookup m "result") = some r → tryObj (lookup r "node_info") = some ni →
        tryStr (lookup ni "id") = some a → tryStr (lookup ni "moniker") = some mo →
        tryObj (lookup r "sync_info") = some si →
        tryStr (lookup si "latest_block_height") = some hstr → parseInt64 hstr = .ok h →
        tryStr (lookup si "latest_block_time") = some lbt →
        tryBool (lookup si "catching_up") = some cu →
        queryNode env a = .ok nresp →
        tryStr (lookup nresp "public_key") = some pk →
        tryBool (lookup nresp "jailed") = some jl →
        tryStr (lookup nresp "service_url") = some surl →
        queryBalance env a = .error e →
        collectNodeStats env
          = (GoOut.err e, [versionReq, statusReq, nodeReq a, balanceReq a])) := by
  refine ⟨rfl, rfl, fun a => ⟨rfl, rfl⟩, ?_, ?_, ?_, ?_, ?_⟩
  · intro e he; simp [collectNodeStats, he]
  · intro v e hv hs; simp [collectNodeStats, hv, hs]
  · intro ns tr hok
    unfold collectNodeStats at hok
    repeat' (first | split at hok | simp_all)
    obtain ⟨h1, h2⟩ := hok
    subst h1
    subst h2
    rfl
  · intro v m r ni a mo si hstr h lbt cu e hv hs h1 h2 h3 h4 h5 h6 h7 h8 h9 h10
    simp [collectNodeStats, hv, hs, h1, h2, h3, h4, h5, h6, h7, h8, h9, h10]
  · intro v m r ni a mo si hstr h lbt cu nresp pk jl surl e hv hs
      h1 h2 h3 h4 h5 h6 h7 h8 h9 h10 h11 h12 h13 h14
    simp [collectNodeStats, hv, hs, h1, h2, h3, h4, h5, h6, h7, h8, h9, h10,
      h11, h12, h13, h14]

/-- Witness for the amended C4 theorem on the concrete environment `okEnv`:
the four calls are issued in order with the address obtained from step 2. -/
theorem collectNodeStats_call_order_witness :
    (collectNodeStats okEnv).snd = [versionReq, statusReq, nodeReq "id1", balanceReq "id1"] :=
  (collectNodeStats_call_order okEnv).2.2.2.2.2.1 nsOk (collectNodeStats okEnv).snd rfl

/-- C5 counterexample: a well-shaped set of payloads whose
`latest_block_height` is `"-1"` and whose `id` and `public_key` are empty
strings makes `collectNodeStats` succeed with a negative height and empty
address and public key — the read validates none of the claimed
invariants. -/
theorem collectNodeStats_invariant_fails :
    (collectNodeStats envNeg).fst = GoOut.ok nsNeg
    ∧ nsNeg.Height < 0 ∧ nsNeg.Address = "" ∧ nsNeg.PublicKey = "" :=
  ⟨by decide, by decide, rfl, rfl⟩

/-- C5 (amended): a successfully produced node-status record has
`height >= 0` and non-empty `address` and `public_key` whenever the status
payload's `latest_block_height` parses to a non-negative integer and the
payload's `id` and `public_key` fields are themselves non-empty; the code
merely copies these inputs, imposing no invariant of its own. -/
theorem collectNodeStats_invariant_wellformed (ver id moniker hstr lbt : String) (cu : Bool)
    (pk : String) (jl : Bool) (surl : String) (bal : ℚ) (h : Int)
    (hp : parseInt64 hstr = .ok h) (hh : 0 ≤ h) (hid : id ≠ "") (hpk : pk ≠ "") :
    ∀ ns tr,
      collectNodeStats (wfEnv ver id moniker hstr lbt cu pk jl surl bal) = (GoOut.ok ns, tr) →
      0 ≤ ns.Height ∧ ns.Address ≠ "" ∧ ns.PublicKey ≠ "" := by
  intro ns tr hok
  rw [collectNodeStats_wfEnv ver id moniker hstr lbt cu pk jl surl bal h hp] at hok
  simp only [Prod.mk.injEq, GoOut.ok.injEq] at hok
  obtain ⟨hns, -⟩ := hok
  subst hns
  exact ⟨hh, hid, hpk⟩

/-- Witness for the amended C5 theorem at the concrete environment `okEnv`. -/
theorem collectNodeStats_invariant_wellformed_witness :
    0 ≤ nsOk.Height ∧ nsOk.Address ≠ "" ∧ nsOk.PublicKey ≠ "" :=
  collectNodeStats_invariant_wellformed "RC-0.6.3" "id1" "alice" "1000000"
    "2021-01-01T00:00:00Z" false "pk1" false "https://node.example" 42 1000000
    rfl (by decide) (by decide) (by decide) nsOk
    [versionReq, statusReq, nodeReq "id1", balanceReq "id1"] rfl

theorem decI64V_intCast (i : Int) (h1 : -(2 ^ 63) ≤ i) (h2 : i ≤ 2 ^ 63 - 1) :
    decI64V (.jnum (i : ℚ)) = .ok i := by
  simp only [decI64V, Rat.den_intCast, Rat.num_intCast]
  split
  · rfl
  · next hcond => exact absurd ⟨trivial, h1, h2⟩ hcond

theorem decU64V_natCast (n : Nat) (h : n < 2 ^ 64) :
    decU64V (.jnum ((n : Int) : ℚ)) = .ok n := by
  simp only [decU64V, Rat.den_intCast, Rat.num_intCast]
  split
  · simp
  · next hcond =>
    refine absurd ⟨trivial, ?_, ?_⟩ hcond
    · positivity
    · exact_mod_cast h

theorem strElems_map (l : List String) : strElems (l.map JValue.jstr) = .ok l := by
  induction l with
  | nil => rfl
  | cons a t ih => simp [strElems, ih]

theorem lookup_node_chain (n : NodeStats) :
    lookup (nodeFieldsJ n) "chain" = .jstr n.Chain := rfl

theorem lookup_node_appVersion (n : NodeStats) :
    lookup (nodeFieldsJ n) "app_version" = .jstr n.AppVersion := rfl

theorem lookup_node_moniker (n : NodeStats) :
    lookup (nodeFieldsJ n) "moniker" = .jstr n.Moniker := rfl

theorem lookup_node_height (n : NodeStats) :
    lookup (nodeFieldsJ n) "height" = .jnum (n.Height : ℚ) := rfl

theorem lookup_node_lbt (n : NodeStats) :
    lookup (nodeFieldsJ n) "LatestBlockTime" = .jstr n.LatestBlockTime := rfl

theorem lookup_node_cu (n : NodeStats) :
    lookup (nodeFieldsJ n) "catching_up" = .jbool n.CatchingUp := rfl

theorem lookup_node_balance (n : NodeStats) :
    lookup (nodeFieldsJ n) "balance" = .jnum n.Balance := rfl

theorem lookup_node_chains (n : NodeStats) :
    lookup (nodeFieldsJ n) "chains" = .jarr (n.Chains.map JValue.jstr) := rfl

theorem lookup_node_jailed (n : NodeStats) :
    lookup (nodeFieldsJ n) "jailed" = .jbool n.Jailed := rfl

theorem lookup_node_surl (n : NodeStats) :
    lookup (nodeFieldsJ n) "service_url" = .jstr n.ServiceUrl := rfl

theorem lookup_node_address (n : NodeStats) :
    lookup (nodeFieldsJ n) "address" = .jstr n.Address := rfl

theorem lookup_node_pk (n : NodeStats) :
    lookup (nodeFieldsJ n) "public_key" = .jstr n.PublicKey := rfl

theorem unmarshalNodeStats_roundtrip (n : NodeStats)
    (h1 : -(2 ^ 63) ≤ n.Height) (h2 : n.Height ≤ 2 ^ 63 - 1) :
    unmarshalNodeStats (marshalNodeStats n) = .ok n := by
  simp only [marshalNodeStats, unmarshalNodeStats,
    lookup_node_chain, lookup_node_appVersion, lookup_node_moniker, lookup_node_height,
    lookup_node_lbt, lookup_node_cu, lookup_node_balance, lookup_node_chains,
    lookup_node_jailed, lookup_node_surl, lookup_node_address, lookup_node_pk,
    decStrV, decBoolV, decFloatV, decStrListV, strElems_map,
    decI64V_intCast n.Height h1 h2]

theorem lookup_host_mt (h : HostStats) :
    lookup (hostFieldsJ h) "MemoryTotal" = .jnum ((h.MemoryTotal : Int) : ℚ) := rfl

theorem lookup_host_mf (h : HostStats) :
    lookup (hostFieldsJ h) "MemoryFree" = .jnum ((h.MemoryFree : Int) : ℚ) := rfl

theorem lookup_host_dt (h : HostStats) :
    lookup (hostFieldsJ h) "DiskTotal" = .jnum ((h.DiskTotal : Int) : ℚ) := rfl

theorem lookup_host_df (h : HostStats) :
    lookup (hostFieldsJ h) "DiskFree" = .jnum ((h.DiskFree : Int) : ℚ) := rfl

theorem lookup_host_up (h : HostStats) :
    lookup (hostFieldsJ h) "Uptime" = .jnum ((h.Uptime : Int) : ℚ) := rfl

theorem lookup_host_platform (h : HostStats) :
    lookup (hostFieldsJ h) "Platform" = .jstr h.Platform := rfl

theorem lookup_host_cpu (h : HostStats) :
    lookup (hostFieldsJ h) "CPUUsagePercent" = .jnum h.CPUUsagePercent := rfl

theorem unmarshalHostStats_roundtrip (hst : HostStats)
    (b1 : hst.MemoryTotal < 2 ^ 64) (b2 : hst.MemoryFree < 2 ^ 64)
    (b3 : hst.DiskTotal < 2 ^ 64) (b4 : hst.DiskFree < 2 ^ 64)
    (b5 : hst.Uptime < 2 ^ 64) :
    unmarshalHostStats (marshalHostStats hst) = .ok hst := by
  show unmarshalHostStats (.jobj (hostFieldsJ hst)) = .ok hst
  rw [unmarshalHostStats]
  rw [lookup_host_mt, lookup_host_mf, lookup_host_dt, lookup_host_df, lookup_host_up,
    lookup_host_platform, lookup_host_cpu]
  rw [decU64V_natCast _ b1, decU64V_natCast _ b2, decU64V_natCast _ b3,
    decU64V_natCast _ b4, decU64V_natCast _ b5]
  rfl

theorem lookup_stats_version (s : Stats) :
    lookup (statsFieldsJ s) "version" = .jstr s.Version := rfl

theorem lookup_stats_timestamp (s : Stats) :
    lookup (statsFieldsJ s) "timestamp" = .jstr s.Timestamp := rfl

theorem lookup_stats_node (s : Stats) :
    lookup (statsFieldsJ s) "node" = marshalNodeStats s.Node := rfl

theorem lookup_stats_host (s : Stats) :
    lookup (statsFieldsJ s) "host" = marshalHostStats s.Host := rfl

/-- C6: serializing a report and decoding the serialized form reproduces
exactly the same field values, for every report whose numeric fields satisfy
the bounds the Go struct types (`int64`, `uint64`) themselves impose. -/
theorem stats_roundtrip (s : Stats) (h : StatsWF s) :
    unmarshalStats (marshalStats s) = .ok s := by
  obtain ⟨h1, h2, h3, h4, h5, h6, h7⟩ := h
  show unmarshalStats (.jobj (statsFieldsJ s)) = .ok s
  rw [unmarshalStats]
  rw [lookup_stats_version, lookup_stats_timestamp, lookup_stats_node, lookup_stats_host]
  rw [unmarshalNodeStats_roundtrip s.Node h1 h2,
    unmarshalHostStats_roundtrip s.Host h3 h4 h5 h6 h7]
  rfl

/-- Witness for C6 at the concrete report `statsEx`. -/
theorem stats_roundtrip_witness :
    StatsWF statsEx ∧ unmarshalStats (marshalStats statsEx) = .ok statsEx :=
  ⟨by decide, stats_roundtrip statsEx (by decide)⟩

/-- C7: every report assembled by `collectStats` has protocol version
exactly `"v1"` and timestamp equal to `now`, the RFC3339-formatted current
time at the call; a failing host read aborts assembly with that error before
any node RPC is issued, and a failing node read aborts assembly with that
error. -/
theorem collectStats_assembly (now : String) (hostRead : Except String HostStats) (env : Env) :
    (∀ s tr, collectStats now hostRead env = (GoOut.ok s, tr) →
      s.Version = "v1" ∧ s.Timestamp = now)
    ∧ (∀ e, hostRead = .error e → collectStats now hostRead env = (GoOut.err e, []))
    ∧ (∀ hs e tr, hostRead = .ok hs → collectNodeStats env = (GoOut.err e, tr) →
        collectStats now hostRead env = (GoOut.err e, tr)) := by
  refine ⟨?_, ?_, ?_⟩
  · intro s tr hok
    unfold collectStats at hok
    repeat' (first | split at hok | simp_all)
    obtain ⟨h1, -⟩ := hok
    subst h1
    exact ⟨rfl, rfl⟩
  · intro e he; simp [collectStats, he]
  · intro hs e tr h1 h2; simp [collectStats, h1, h2]

/-- Witness for C7: with a failing host read, assembly fails with that error
and issues no node RPC. -/
theorem collectStats_assembly_witness :
    collectStats "t0" (Except.error "boom") okEnv = (GoOut.err "boom", []) :=
  (collectStats_assembly "t0" (Except.error "boom") okEnv).2.1 "boom" rfl

/-- C8: the unconditional startup call `collectAndSend()` at collector.go:349
passes zero arguments to the two-parameter function `collectAndSend(node,
key string)`, so the source does not type-check and the claimed immediate
startup cycle cannot run as written. -/
theorem startup_call_arity_mismatch : startupCallArgCount ≠ collectAndSendParamCount := by
  decide

/-- C9 counterexample: a host-metrics value with `MemoryTotal > 0` and
`DiskTotal > 0` but more free memory than total memory yields a free-memory
percentage above 100 — the summary computation does not clamp. -/
theorem hostStats_percent_out_of_range :
    0 < hostCex.MemoryTotal ∧ 0 < hostCex.DiskTotal
    ∧ ¬ hostCex.memFreePercent ≤ 100 := by
  refine ⟨by decide, by decide, ?_⟩
  norm_num [HostStats.memFreePercent, hostCex]

/-- C9 (amended): for every host-metrics value with positive totals and free
at most total on both resources, the free-memory and free-disk percentages
of the diagnostic summary lie in the closed interval from 0 to 100. -/
theorem hostStats_percent_in_range (s : HostStats) (hm : 0 < s.MemoryTotal)
    (hmf : s.MemoryFree ≤ s.MemoryTotal) (hd : 0 < s.DiskTotal)
    (hdf : s.DiskFree ≤ s.DiskTotal) :
    0 ≤ s.memFreePercent ∧ s.memFreePercent ≤ 100
    ∧ 0 ≤ s.diskFreePercent ∧ s.diskFreePercent ≤ 100 := by
  have g : ∀ a b : Nat, 0 < b → a ≤ b →
      0 ≤ 100 * ((a : ℚ) / (b : ℚ)) ∧ 100 * ((a : ℚ) / (b : ℚ)) ≤ 100 := by
    intro a b hb hab
    have hb1 : (0 : ℚ) < (b : ℚ) := by exact_mod_cast hb
    have hab1 : (a : ℚ) ≤ (b : ℚ) := by exact_mod_cast hab
    have hq : (a : ℚ) / (b : ℚ) ≤ 1 := (div_le_one hb1).mpr hab1
    constructor
    · positivity
    · nlinarith
  simp only [HostStats.memFreePercent, HostStats.diskFreePercent]
  exact ⟨(g _ _ hm hmf).1, (g _ _ hm hmf).2, (g _ _ hd hdf).1, (g _ _ hd hdf).2⟩

/-- Witness for the amended C9 theorem at the concrete host record
`hostWit`. -/
theorem hostStats_percent_in_range_witness :
    0 < hostWit.MemoryTotal ∧ hostWit.MemoryFree ≤ hostWit.MemoryTotal
    ∧ 0 < hostWit.DiskTotal ∧ hostWit.DiskFree ≤ hostWit.DiskTotal
    ∧ (0 ≤ hostWit.memFreePercent ∧ hostWit.memFreePercent ≤ 100
       ∧ 0 ≤ hostWit.diskFreePercent ∧ hostWit.diskFreePercent ≤ 100) :=
  ⟨by decide, by decide, by decide, by decide,
   hostStats_percent_in_range hostWit (by decide) (by decide) (by decide) (by decide)⟩

/-- C10: the three query helpers never inspect the HTTP response status
code: whatever the code (including error statuses such as 500), a response
whose body decodes as a JSON object is returned as a success, and the result
of each query is entirely independent of the status code. -/
theorem queries_ignore_status_code (c : Int) (m : List (String × JValue)) (a : String)
    (vr sr nr br : Except String RpcResp) :
    queryStatus (mkEnv vr (.ok ⟨c, some (.jobj m)⟩) nr br) = .ok m
    ∧ queryNode (mkEnv vr sr (.ok ⟨c, some (.jobj m)⟩) br) a = .ok m
    ∧ queryBalance (mkEnv vr sr nr (.ok ⟨c, some (.jobj m)⟩)) a = .ok m
    ∧ (∀ (b : Option JValue) (c1 c2 : Int),
        queryStatus (mkEnv vr (.ok ⟨c1, b⟩) nr br)
          = queryStatus (mkEnv vr (.ok ⟨c2, b⟩) nr br))
    ∧ (∀ (b : Option JValue) (c1 c2 : Int),
        queryNode (mkEnv vr sr (.ok ⟨c1, b⟩) br) a
          = queryNode (mkEnv vr sr (.ok ⟨c2, b⟩) br) a)
    ∧ (∀ (b : Option JValue) (c1 c2 : Int),
        queryBalance (mkEnv vr sr nr (.ok ⟨c1, b⟩)) a
          = queryBalance (mkEnv vr sr nr (.ok ⟨c2, b⟩)) a) :=
  ⟨queryStatus_mkEnv_ok c m vr nr br, queryNode_mkEnv_ok c m a vr sr br,
   queryBalance_mkEnv_ok c m a vr sr nr,
   fun _ _ _ => rfl, fun _ _ _ => rfl, fun _ _ _ => rfl⟩

end Pocketmon
